import Mathlib

/-!
Shallow embedding of the crew-flight assignment formulation of
`Probleme13` (files `models/gurobi_solver.py` and `models/data_model.py`).

Times, durations and costs are modelled as rationals (the Python code uses
numbers on a flat timeline); the external MILP engine is modelled as an
oracle supplying a status code, an objective value, a runtime and a
valuation of the binary variables.  Variables are identified by their
index triple `(f_idx, p_idx, c_idx)` exactly as the keys of the `y_vars`
dictionary in the source.
-/

attribute [local semireducible] Rat.add Rat.sub Rat.mul Rat.inv

namespace Probleme13

/-- A flight, as appended by `DataModel.add_flight`.  The French alias
keys produced later by extraction (`vol`, `heure_depart`, ...) duplicate
these fields verbatim and are not modelled separately. -/
structure Flight where
  id : String
  departure : ℚ
  arrival : ℚ
  duration : ℚ
  aircraft_type : String
  dep_base : String
  arr_base : String
  languages : List String
  op_cost : ℚ
deriving DecidableEq, Inhabited, Repr

/-- A crew member (pilot or copilot), as appended by `DataModel.add_pilot`
and `DataModel.add_copilot`; the two pools are structurally identical. -/
structure CrewMember where
  id : String
  name : String
  qualifications : List String
  languages : List String
  hourly_cost : ℚ
  base : String
  min_hours : ℚ
  max_hours : ℚ
deriving DecidableEq, Inhabited, Repr

/-- The catalog plus the scalar parameters held by `DataModel`. -/
structure DataModel where
  flights : List Flight
  pilots : List CrewMember
  copilots : List CrewMember
  min_rest : ℚ
  base_penalty_coeff : ℚ
  lambda_weight : ℚ
deriving Inhabited

/-- A decision-variable key `(f_idx, p_idx, c_idx)`. -/
abbrev VarKey : Type := ℕ × ℕ × ℕ

/-- The compatibility test of `GurobiSolver.solve`, lines 60-73: the
`compatible` flag stays true iff the aircraft type is in both crew
members qualification lists and every required language of the flight is
spoken by both crew members. -/
def tripleCompatible (flight : Flight) (pilot copilot : CrewMember) : Bool :=
  decide (flight.aircraft_type ∈ pilot.qualifications) &&
  decide (flight.aircraft_type ∈ copilot.qualifications) &&
  flight.languages.all (fun lang => decide (lang ∈ pilot.languages)) &&
  flight.languages.all (fun lang => decide (lang ∈ copilot.languages))

/-- The keys of the `y_vars` dictionary, in insertion order: the triple
loop of `GurobiSolver.solve` lines 57-79 adds one binary variable per
compatible `(flight, pilot, copilot)` index triple. -/
def yVars (flights : List Flight) (pilots copilots : List CrewMember) :
    List VarKey :=
  flights.enum.flatMap (fun fi =>
    pilots.enum.flatMap (fun pj =>
      copilots.enum.filterMap (fun ck =>
        if tripleCompatible fi.2 pj.2 ck.2 then some (fi.1, pj.1, ck.1)
        else none)))

/-- The `overlaps` list of `GurobiSolver.solve` lines 97-104: ordered
index pairs `(i, j)` with `i < j` whose flights overlap in time, i.e.
`not (f1.arrival <= f2.departure or f2.arrival <= f1.departure)`. -/
def overlapPairs (flights : List Flight) : List (ℕ × ℕ) :=
  flights.enum.flatMap (fun fi =>
    flights.enum.filterMap (fun fj =>
      if fi.1 < fj.1 ∧
          ¬ (fi.2.arrival ≤ fj.2.departure ∨ fj.2.arrival ≤ fi.2.departure)
      then some (fi.1, fj.1) else none))

/-- The index pairs for which the minimum-rest loop of
`GurobiSolver.solve` lines 127-135 fires: `i ≠ j`, flight `j` departs
after flight `i` arrives, and the gap is strictly between `0` and
`min_rest`.  (The source iterates `i` then `j` for a fixed pilot; the
pair list is the same for every pilot, so it is factored out here.) -/
def restPairs (flights : List Flight) (min_rest : ℚ) : List (ℕ × ℕ) :=
  flights.enum.flatMap (fun fi =>
    flights.enum.filterMap (fun fj =>
      if fi.1 ≠ fj.1 ∧ fi.2.arrival < fj.2.departure ∧
          0 < fj.2.departure - fi.2.arrival ∧
          fj.2.departure - fi.2.arrival < min_rest
      then some (fi.1, fj.1) else none))

/-- Direction of a linear constraint. -/
inductive Rel : Type
  | le
  | ge
deriving DecidableEq, Repr

/-- A linear constraint of the MILP model: a name, a list of
`(variable key, coefficient)` terms, a direction and a right-hand side. -/
structure Constr where
  cname : String
  terms : List (VarKey × ℚ)
  rel : Rel
  rhs : ℚ
deriving DecidableEq, Repr

/-- Coverage constraints (`# Contrainte 1`, lines 90-93): for every flight
index with at least one variable, the sum of the variables referencing it
is at most `1`. -/
def coverageConstrs (flights : List Flight) (vars : List VarKey) :
    List Constr :=
  (List.range flights.length).filterMap (fun fIdx =>
    let vs := vars.filter (fun k => k.1 == fIdx)
    if vs.isEmpty then none
    else some { cname := "vol_" ++ toString fIdx,
                terms := vs.map (fun k => (k, (1 : ℚ))),
                rel := Rel.le, rhs := 1 })

/-- Pilot non-overlap constraints (`# Contrainte 2`, lines 107-113): for
every pilot index and every overlapping flight pair with variables on
both sides, the sum over both flights is at most `1`. -/
def overlapConstrsP (flights : List Flight) (pilots : List CrewMember)
    (vars : List VarKey) : List Constr :=
  (List.range pilots.length).flatMap (fun pIdx =>
    (overlapPairs flights).filterMap (fun ij =>
      let vs1 := vars.filter (fun k => k.1 == ij.1 && k.2.1 == pIdx)
      let vs2 := vars.filter (fun k => k.1 == ij.2 && k.2.1 == pIdx)
      if vs1.isEmpty || vs2.isEmpty then none
      else some { cname := "overlap_p" ++ toString pIdx ++ "_" ++
                    toString ij.1 ++ "_" ++ toString ij.2,
                  terms := (vs1 ++ vs2).map (fun k => (k, (1 : ℚ))),
                  rel := Rel.le, rhs := 1 }))

/-- Copilot non-overlap constraints (lines 116-122), mirroring the pilot
ones on the copilot index. -/
def overlapConstrsC (flights : List Flight) (copilots : List CrewMember)
    (vars : List VarKey) : List Constr :=
  (List.range copilots.length).flatMap (fun cIdx =>
    (overlapPairs flights).filterMap (fun ij =>
      let vs1 := vars.filter (fun k => k.1 == ij.1 && k.2.2 == cIdx)
      let vs2 := vars.filter (fun k => k.1 == ij.2 && k.2.2 == cIdx)
      if vs1.isEmpty || vs2.isEmpty then none
      else some { cname := "overlap_c" ++ toString cIdx ++ "_" ++
                    toString ij.1 ++ "_" ++ toString ij.2,
                  terms := (vs1 ++ vs2).map (fun k => (k, (1 : ℚ))),
                  rel := Rel.le, rhs := 1 }))

/-- Pilot minimum-rest constraints (`# Contrainte 3`, lines 126-140).
The source generates these for the pilot index only; no analogous loop
exists for copilots. -/
def restConstrsP (flights : List Flight) (pilots : List CrewMember)
    (min_rest : ℚ) (vars : List VarKey) : List Constr :=
  (List.range pilots.length).flatMap (fun pIdx =>
    (restPairs flights min_rest).filterMap (fun ij =>
      let vsi := vars.filter (fun k => k.1 == ij.1 && k.2.1 == pIdx)
      let vsj := vars.filter (fun k => k.1 == ij.2 && k.2.1 == pIdx)
      if vsi.isEmpty || vsj.isEmpty then none
      else some { cname := "rest_p" ++ toString pIdx ++ "_" ++
                    toString ij.1 ++ "_" ++ toString ij.2,
                  terms := (vsi ++ vsj).map (fun k => (k, (1 : ℚ))),
                  rel := Rel.le, rhs := 1 }))

/-- Pilot duty-hour constraints (`# Contrainte 4`, lines 143-151): the
duration-weighted sum of a pilot's variables is at most `max_hours`. -/
def maxHoursConstrsP (flights : List Flight) (pilots : List CrewMember)
    (vars : List VarKey) : List Constr :=
  pilots.enum.filterMap (fun pj =>
    let terms := (vars.filter (fun k => k.2.1 == pj.1)).map
      (fun k => (k, (flights.getD k.1 default).duration))
    if terms.isEmpty then none
    else some { cname := "max_hours_p" ++ toString pj.1,
                terms := terms, rel := Rel.le, rhs := pj.2.max_hours })

/-- Copilot duty-hour constraints (lines 153-161). -/
def maxHoursConstrsC (flights : List Flight) (copilots : List CrewMember)
    (vars : List VarKey) : List Constr :=
  copilots.enum.filterMap (fun cj =>
    let terms := (vars.filter (fun k => k.2.2 == cj.1)).map
      (fun k => (k, (flights.getD k.1 default).duration))
    if terms.isEmpty then none
    else some { cname := "max_hours_c" ++ toString cj.1,
                terms := terms, rel := Rel.le, rhs := cj.2.max_hours })

/-- Non-triviality (`# Contrainte 5`, lines 164-165): the sum of all
variables is at least `1` whenever any variable exists. -/
def minOneConstr (vars : List VarKey) : List Constr :=
  if vars.length > 0 then
    [{ cname := "min_one_assignment",
       terms := vars.map (fun k => (k, (1 : ℚ))),
       rel := Rel.ge, rhs := 1 }]
  else []

/-- All constraints of the built model, in the order the source adds
them to the Gurobi model. -/
def buildConstraints (data : DataModel) (vars : List VarKey) :
    List Constr :=
  coverageConstrs data.flights vars ++
  overlapConstrsP data.flights data.pilots vars ++
  overlapConstrsC data.flights data.copilots vars ++
  restConstrsP data.flights data.pilots data.min_rest vars ++
  maxHoursConstrsP data.flights data.pilots vars ++
  maxHoursConstrsC data.flights data.copilots vars ++
  minOneConstr vars

/-- Total cost of a candidate triple, computed as in lines 180-194 of the
source (and again verbatim in `extract_results`, lines 256-268): salary
cost plus operational cost plus the base-mismatch penalty, the latter
counting the mismatching crew members and multiplying by
`base_penalty_coeff`. -/
def tripleTotalCost (coeff : ℚ) (flight : Flight)
    (pilot copilot : CrewMember) : ℚ :=
  let salary_cost := (pilot.hourly_cost + copilot.hourly_cost) * flight.duration
  let op_cost := flight.op_cost
  let base_penalty :=
    ((if flight.arr_base ≠ pilot.base then (1 : ℚ) else 0) +
     (if flight.arr_base ≠ copilot.base then (1 : ℚ) else 0)) * coeff
  salary_cost + op_cost + base_penalty

/-- Total cost of a variable key, looking the entities up by index. -/
def keyTotalCost (coeff : ℚ) (flights : List Flight)
    (pilots copilots : List CrewMember) (k : VarKey) : ℚ :=
  tripleTotalCost coeff (flights.getD k.1 default)
    (pilots.getD k.2.1 default) (copilots.getD k.2.2 default)

/-- Expression `Z1` of the source (line 171): the sum of all variables, evaluated at
a valuation `x`. -/
def Z1val (vars : List VarKey) (x : VarKey → ℚ) : ℚ :=
  (vars.map x).sum

/-- Expression `Z2` of the source (lines 174-199): each term is the negated total
cost of the triple times its variable, summed. -/
def Z2val (coeff : ℚ) (flights : List Flight)
    (pilots copilots : List CrewMember) (vars : List VarKey)
    (x : VarKey → ℚ) : ℚ :=
  (vars.map (fun k => -(keyTotalCost coeff flights pilots copilots k) * x k)).sum

/-- The fixed normalization constant of line 213 (each flight is worth
about 1000 cost units). -/
def weight_per_flight : ℚ := 1000

/-- The scalarized objective of lines 202-215, evaluated at a valuation. -/
def objectiveVal (data : DataModel) (vars : List VarKey)
    (x : VarKey → ℚ) : ℚ :=
  let Z1 := Z1val vars x
  let Z2 := Z2val data.base_penalty_coeff data.flights data.pilots
    data.copilots vars x
  if data.lambda_weight = 0 then Z2
  else if data.lambda_weight = 1 then Z1
  else data.lambda_weight * (Z1 * weight_per_flight) +
    (1 - data.lambda_weight) * Z2

/-- Optimization sense. -/
inductive Sense : Type
  | maximize
  | minimize
deriving DecidableEq, Repr

/-- The sense passed to `model.setObjective` (line 217): `GRB.MAXIMIZE`
in every branch. -/
def modelSense : Sense := Sense.maximize

/-- Numeric value of the `gurobipy` status constant `GRB.OPTIMAL`. -/
def GRB_OPTIMAL : Int := 2

/-- Numeric value of the `gurobipy` status constant `GRB.INFEASIBLE`. -/
def GRB_INFEASIBLE : Int := 3

/-- Numeric value of the `gurobipy` status constant `GRB.TIME_LIMIT`. -/
def GRB_TIME_LIMIT : Int := 9

/-- Function `GurobiSolver.get_status_string`, lines 324-333. -/
def get_status_string (status : Int) : String :=
  if status = GRB_OPTIMAL then "OPTIMAL"
  else if status = GRB_INFEASIBLE then "INFAISABLE"
  else if status = GRB_TIME_LIMIT then "TEMPS_LIMITE"
  else "AUTRE"

/-- One assignment of the report, as appended in `extract_results`
(lines 271-287); the duplicated French alias keys carry the same values
and are not modelled separately. -/
structure Assignment where
  flight : String
  pilot : String
  copilot : String
  departure : ℚ
  arrival : ℚ
  duration : ℚ
  aircraft : String
  cost : ℚ
deriving DecidableEq, Inhabited, Repr

/-- The result dictionary.  The source returns plain dictionaries whose
key sets differ per branch; keys that a branch leaves absent are
modelled as `none` (for scalars) or `[]` (for lists). -/
structure SolveResult where
  status : Int
  status_str : String
  objective_value : Option ℚ
  solve_time : Option ℚ
  solution : List (VarKey × ℚ)
  assignments : List Assignment
  total_cost : Option ℚ
  message : String
deriving DecidableEq, Repr

/-- Function `GurobiSolver.extract_results`, lines 228-293.  `status`, `runtime`,
`objVal` and the valuation `x` stand for `model.status`, `model.Runtime`,
`model.ObjVal` and the `var.X` attributes supplied by the external
solver.  Assignments are reconstructed only in the `GRB.OPTIMAL` branch,
iterating the variable keys in insertion order and keeping those whose
value exceeds `0.5`. -/
def extract_results (coeff : ℚ) (status : Int) (runtime objVal : ℚ)
    (vars : List VarKey) (x : VarKey → ℚ) (flights : List Flight)
    (pilots copilots : List CrewMember) : SolveResult :=
  let base : SolveResult :=
    { status := status, status_str := get_status_string status,
      objective_value := none, solve_time := some runtime,
      solution := [], assignments := [], total_cost := some 0,
      message := "" }
  if status = GRB_OPTIMAL then
    let sel := vars.filter (fun k => decide (mkRat 1 2 < x k))
    let assignments := sel.map (fun k =>
      let flight := flights.getD k.1 default
      let pilot := pilots.getD k.2.1 default
      let copilot := copilots.getD k.2.2 default
      let salary_cost :=
        (pilot.hourly_cost + copilot.hourly_cost) * flight.duration
      let op_cost := flight.op_cost
      let base_penalty :=
        ((if flight.arr_base ≠ pilot.base then (1 : ℚ) else 0) +
         (if flight.arr_base ≠ copilot.base then (1 : ℚ) else 0)) * coeff
      let flight_cost := salary_cost + op_cost + base_penalty
      { flight := flight.id, pilot := pilot.name, copilot := copilot.name,
        departure := flight.departure, arrival := flight.arrival,
        duration := flight.duration, aircraft := flight.aircraft_type,
        cost := flight_cost })
    { base with
      objective_value := some objVal,
      solution := sel.map (fun k => (k, x k)),
      assignments := assignments,
      total_cost := some (assignments.map (fun a => a.cost)).sum,
      message := "✅ " ++ toString assignments.length ++
        " affectations trouvées" }
  else base

/-- Function `GurobiSolver.create_fallback_solution`, lines 335-366: looks only at
the first flight, the first pilot and the first copilot, and only at the
aircraft-type qualifications; on success it forces that single
assignment (whose cost omits the base penalty), otherwise it returns an
empty report; the status is `2` / `OPTIMAL (secours)` either way. -/
def create_fallback_solution (flights : List Flight)
    (pilots copilots : List CrewMember) : SolveResult :=
  let pair : List (VarKey × ℚ) × List Assignment :=
    match flights, pilots, copilots with
    | f :: _, p :: _, c :: _ =>
      if f.aircraft_type ∈ p.qualifications ∧
          f.aircraft_type ∈ c.qualifications then
        ([((0, 0, 0), 1)],
         [{ flight := f.id, pilot := p.name, copilot := c.name,
            departure := f.departure, arrival := f.arrival,
            duration := f.duration, aircraft := f.aircraft_type,
            cost := (p.hourly_cost + c.hourly_cost) * f.duration +
              f.op_cost }])
      else ([], [])
    | _, _, _ => ([], [])
  { status := 2, status_str := "OPTIMAL (secours)",
    objective_value := some (pair.1.length : ℚ),
    solve_time := some (mkRat 1 10), solution := pair.1,
    assignments := pair.2, total_cost := none,
    message := "✅ Solution de secours: " ++ toString pair.1.length ++
      " affectation(s)" }

/-- The status/objective/runtime/valuation answer of the external MILP
engine for the built model (section 4.4 of the specification treats the
solver as an opaque service). -/
structure SolverOracle where
  status : Int
  objVal : ℚ
  runtime : ℚ
  valuation : VarKey → ℚ

/-- Function `GurobiSolver.solve`, lines 31-226: reject empty catalogs with the
`ERREUR` dictionary (lines 38-44); generate the variables; route an
empty variable set to the fallback (lines 81-83); otherwise build the
constraints and objective, hand the model to the external engine, and
extract the results from its answer. -/
def solve (data : DataModel) (oracle : SolverOracle) : SolveResult :=
  if data.flights.length = 0 ∨ data.pilots.length = 0 ∨
      data.copilots.length = 0 then
    { status := -1, status_str := "ERREUR", objective_value := none,
      solve_time := none, solution := [], assignments := [],
      total_cost := none, message := "Données insuffisantes" }
  else
    let vars := yVars data.flights data.pilots data.copilots
    if vars.length = 0 then
      create_fallback_solution data.flights data.pilots data.copilots
    else
      extract_results data.base_penalty_coeff oracle.status oracle.runtime
        oracle.objVal vars oracle.valuation data.flights data.pilots
        data.copilots

/-- The specification's compatibility predicate (section 4.1), used as
the spec-side comparator for the refinement of variable generation:
`compatible(f, c)` iff the aircraft type is among the qualifications and
the required languages are a subset of the spoken ones. -/
def compatibleSpec (f : Flight) (c : CrewMember) : Prop :=
  f.aircraft_type ∈ c.qualifications ∧
  ∀ lang ∈ f.languages, lang ∈ c.languages

instance (f : Flight) (c : CrewMember) : Decidable (compatibleSpec f c) := by
  unfold compatibleSpec
  infer_instance

/-- The specification's total-cost formula (section 3, Assignment), the
spec-side comparator for the cost refinement claims. -/
def totalCostSpec (coeff : ℚ) (f : Flight) (p c : CrewMember) : ℚ :=
  (p.hourly_cost + c.hourly_cost) * f.duration + f.op_cost +
  coeff * ((if f.arr_base ≠ p.base then (1 : ℚ) else 0) +
           (if f.arr_base ≠ c.base then (1 : ℚ) else 0))

/-- The specification's per-variable Assignment reconstruction
(section 4.5), the spec-side comparator for the extraction claims. -/
def reconstructSpec (coeff : ℚ) (flights : List Flight)
    (pilots copilots : List CrewMember) (k : VarKey) : Assignment :=
  let f := flights.getD k.1 default
  let p := pilots.getD k.2.1 default
  let c := copilots.getD k.2.2 default
  { flight := f.id, pilot := p.name, copilot := c.name,
    departure := f.departure, arrival := f.arrival,
    duration := f.duration, aircraft := f.aircraft_type,
    cost := totalCostSpec coeff f p c }

/-- The specification's coverage objective `Z_cover = Σ variables`
(section 4.3, step 7), spec-side comparator. -/
def Zcover_spec (vars : List VarKey) (x : VarKey → ℚ) : ℚ :=
  (vars.map x).sum

/-- The specification's cost objective
`Z_cost = −Σ(total_cost(triple) × variable)` (section 4.3, step 7),
with the negation outside the sum, spec-side comparator. -/
def Zcost_spec (coeff : ℚ) (flights : List Flight)
    (pilots copilots : List CrewMember) (vars : List VarKey)
    (x : VarKey → ℚ) : ℚ :=
  -(vars.map (fun k => keyTotalCost coeff flights pilots copilots k * x k)).sum

/-- The variables of pilot `pIdx` referencing flight `fIdx`. -/
def pilotVarsOn (vars : List VarKey) (pIdx fIdx : ℕ) : List VarKey :=
  vars.filter (fun k => k.1 == fIdx && k.2.1 == pIdx)

/-- The variables of copilot `cIdx` referencing flight `fIdx`. -/
def copilotVarsOn (vars : List VarKey) (cIdx fIdx : ℕ) : List VarKey :=
  vars.filter (fun k => k.1 == fIdx && k.2.2 == cIdx)

/-- Statement that `ct` is a rest-style constraint over the keys `ks`: direction `≤`,
right-hand side `1`, and every key of `ks` present with coefficient `1`
(the structure shared by all crew rest constraints of the model). -/
def boundsSumBy1 (ct : Constr) (ks : List VarKey) : Prop :=
  ct.rel = Rel.le ∧ ct.rhs = 1 ∧ ∀ k ∈ ks, (k, (1 : ℚ)) ∈ ct.terms

instance (ct : Constr) (ks : List VarKey) : Decidable (boundsSumBy1 ct ks) := by
  unfold boundsSumBy1
  infer_instance

/-- Example flight: A320, languages FR, arriving at ORY, 08h-10h. -/
def exFlight1 : Flight :=
  { id := "AF1", departure := 0, arrival := 2, duration := 2,
    aircraft_type := "A320", dep_base := "CDG", arr_base := "ORY",
    languages := ["FR"], op_cost := 500 }

/-- Example flight departing 3 hours after `exFlight1` arrives. -/
def exFlight2 : Flight :=
  { id := "AF2", departure := 5, arrival := 7, duration := 2,
    aircraft_type := "A320", dep_base := "ORY", arr_base := "CDG",
    languages := ["FR"], op_cost := 550 }

/-- Example flight whose arrival precedes its departure and whose
operational cost is negative (malformed on purpose). -/
def exFlightBad : Flight :=
  { id := "AFX", departure := 10, arrival := 8, duration := 2,
    aircraft_type := "A320", dep_base := "CDG", arr_base := "ORY",
    languages := ["FR"], op_cost := -5 }

/-- Example flight requiring French. -/
def exFlightFR : Flight :=
  { id := "AF9", departure := 8, arrival := 10, duration := 2,
    aircraft_type := "A320", dep_base := "CDG", arr_base := "MRS",
    languages := ["FR"], op_cost := 500 }

/-- Example pilot, A320-qualified, French-speaking, based at ORY. -/
def exPilot1 : CrewMember :=
  { id := "P1", name := "Jean", qualifications := ["A320"],
    languages := ["FR"], hourly_cost := 150, base := "ORY",
    min_hours := 0, max_hours := 100 }

/-- Second example pilot, A320-qualified, based at CDG. -/
def exPilot2 : CrewMember :=
  { id := "P2", name := "Pierre", qualifications := ["A320"],
    languages := ["FR"], hourly_cost := 160, base := "CDG",
    min_hours := 0, max_hours := 100 }

/-- Example pilot qualified on the A320 but speaking only English. -/
def exPilotEN : CrewMember :=
  { id := "P9", name := "John", qualifications := ["A320"],
    languages := ["EN"], hourly_cost := 150, base := "MRS",
    min_hours := 0, max_hours := 100 }

/-- Example copilot, A320-qualified, French-speaking, based at ORY. -/
def exCopilot1 : CrewMember :=
  { id := "C1", name := "Marie", qualifications := ["A320"],
    languages := ["FR"], hourly_cost := 120, base := "ORY",
    min_hours := 0, max_hours := 90 }

/-- Example copilot qualified on the A320 but speaking only English. -/
def exCopilotEN : CrewMember :=
  { id := "C9", name := "Emma", qualifications := ["A320"],
    languages := ["EN"], hourly_cost := 120, base := "MRS",
    min_hours := 0, max_hours := 90 }

/-- Catalog with two flights three hours apart, two pilots and one
copilot, all mutually compatible; `min_rest = 8` makes the pair
TOO_CLOSE. -/
def exDataRest : DataModel :=
  { flights := [exFlight1, exFlight2], pilots := [exPilot1, exPilot2],
    copilots := [exCopilot1], min_rest := 8, base_penalty_coeff := 100,
    lambda_weight := mkRat 1 2 }

/-- Catalog whose only flight requires French while the only pilot and
copilot speak English: no candidate triple exists, yet the
qualification-only fallback check passes. -/
def exDataNoLang : DataModel :=
  { flights := [exFlightFR], pilots := [exPilotEN],
    copilots := [exCopilotEN], min_rest := 8, base_penalty_coeff := 100,
    lambda_weight := mkRat 1 2 }

/-- Catalog containing the malformed flight with a compatible crew. -/
def exDataBad : DataModel :=
  { flights := [exFlightBad], pilots := [exPilot1],
    copilots := [exCopilot1], min_rest := 8, base_penalty_coeff := 100,
    lambda_weight := mkRat 1 2 }

/-- An oracle answering OPTIMAL with every variable set to `1`. -/
def exOracle : SolverOracle :=
  { status := 2, objVal := 0, runtime := 0, valuation := fun _ => 1 }

/-- Example flight departing exactly when `exFlight1` arrives (gap 0). -/
def exFlightT : Flight :=
  { id := "AF3", departure := 2, arrival := 4, duration := 2,
    aircraft_type := "A320", dep_base := "ORY", arr_base := "CDG",
    languages := ["FR"], op_cost := 520 }

/-- Catalog with an empty flight list but non-empty crews. -/
def exDataEmpty : DataModel :=
  { flights := [], pilots := [exPilot1], copilots := [exCopilot1],
    min_rest := 8, base_penalty_coeff := 100,
    lambda_weight := mkRat 1 2 }

/-! Helper lemmas shared by the claim theorems. -/

/-- Summing the pointwise negation of a function over a list negates the
sum. -/
theorem sum_map_neg {α : Type} (l : List α) (g : α → ℚ) :
    (l.map (fun a => -(g a))).sum = -((l.map g).sum) := by
  induction l with
  | nil => simp
  | cons a l ih => simp [ih, neg_add, add_comm]

/-- The compatibility flag of the source equals the conjunction of the
two spec-side compatibility predicates. -/
theorem tripleCompatible_iff (f : Flight) (p c : CrewMember) :
    tripleCompatible f p c = true ↔ compatibleSpec f p ∧ compatibleSpec f c := by
  simp only [tripleCompatible, compatibleSpec, Bool.and_eq_true,
    decide_eq_true_eq, List.all_eq_true]
  tauto

/-- The enumeration of a list has no duplicate entries. -/
theorem enum_nodup {α : Type} (l : List α) : l.enum.Nodup :=
  (List.nodup_enum_map_fst l).of_map

/-- Entries of an enumeration have pairwise distinct indices. -/
theorem enum_pairwise_fst {α : Type} (l : List α) :
    l.enum.Pairwise (fun a b => a.1 ≠ b.1) :=
  List.pairwise_map.mp (List.nodup_enum_map_fst l)

/-- Membership in a conditional singleton option forces equality. -/
theorem eq_of_mem_ite_some {α : Type} {c : Prop} [Decidable c] {x y : α}
    (h : x ∈ (if c then some y else none)) : x = y ∧ c := by
  by_cases hc : c
  · simp [hc] at h
    simp [h, hc]
  · simp [hc] at h

/-- The status string is never the error marker of the empty-catalog
branch. -/
theorem get_status_string_ne_erreur (status : Int) :
    get_status_string status ≠ "ERREUR" := by
  unfold get_status_string
  split
  · decide
  · split
    · decide
    · split <;> decide

/-- On any non-OPTIMAL status, extraction returns the base report
unchanged: no assignments, no objective value, empty solution. -/
theorem extract_results_of_ne (coeff runtime objVal : ℚ)
    (vars : List VarKey) (x : VarKey → ℚ) (flights : List Flight)
    (pilots copilots : List CrewMember) (status : Int)
    (h : status ≠ GRB_OPTIMAL) :
    extract_results coeff status runtime objVal vars x flights pilots
        copilots =
      { status := status, status_str := get_status_string status,
        objective_value := none, solve_time := some runtime,
        solution := [], assignments := [], total_cost := some 0,
        message := "" } := by
  unfold extract_results
  rw [if_neg h]

/-- On OPTIMAL, the assignments of the extraction are exactly the
spec-side reconstruction mapped over the selected variable keys in their
creation order. -/
theorem extract_results_assignments_optimal (coeff runtime objVal : ℚ)
    (vars : List VarKey) (x : VarKey → ℚ) (flights : List Flight)
    (pilots copilots : List CrewMember) :
    (extract_results coeff GRB_OPTIMAL runtime objVal vars x flights
        pilots copilots).assignments =
      (vars.filter (fun k => decide (mkRat 1 2 < x k))).map
        (reconstructSpec coeff flights pilots copilots) := by
  unfold extract_results
  rw [if_pos rfl]
  refine List.map_congr_left (fun k _ => ?_)
  unfold reconstructSpec totalCostSpec
  simp only [Assignment.mk.injEq, true_and, and_true]
  ring

/-- A conditional singleton option equal to `some` forces the condition
and the value. -/
theorem cond_some_eq_some {α : Type} {c : Prop} [Decidable c] {x y : α}
    (h : (if c then some y else none) = some x) : x = y ∧ c :=
  eq_of_mem_ite_some (Option.mem_def.mpr h)

/-- The variable keys are pairwise distinct: the dictionary `y_vars`
holds exactly one variable per compatible index triple. -/
theorem yVars_nodup (flights : List Flight)
    (pilots copilots : List CrewMember) :
    (yVars flights pilots copilots).Nodup := by
  unfold yVars
  rw [List.nodup_flatMap]
  refine ⟨fun fi _ => ?_, ?_⟩
  · rw [List.nodup_flatMap]
    refine ⟨fun pj _ => ?_, ?_⟩
    · show List.Pairwise _ _
      refine List.Pairwise.filterMap _ ?_ (enum_pairwise_fst copilots)
      intro a b hab y hy z hz
      obtain ⟨hy1, _⟩ := eq_of_mem_ite_some hy
      obtain ⟨hz1, _⟩ := eq_of_mem_ite_some hz
      subst hy1
      subst hz1
      intro hcontra
      exact hab (congrArg (fun t => t.2.2) hcontra)
    · refine List.Pairwise.imp ?_ (enum_pairwise_fst pilots)
      intro pj pj2 hne k hk hk2
      rcases List.mem_filterMap.mp hk with ⟨ck, _, hck⟩
      rcases List.mem_filterMap.mp hk2 with ⟨ck2, _, hck2⟩
      obtain ⟨h1, _⟩ := cond_some_eq_some hck
      obtain ⟨h2, _⟩ := cond_some_eq_some hck2
      exact hne (congrArg (fun t => t.2.1) (h1.symm.trans h2))
  · refine List.Pairwise.imp ?_ (enum_pairwise_fst flights)
    intro fi fi2 hne k hk hk2
    rcases List.mem_flatMap.mp hk with ⟨pj, _, hk⟩
    rcases List.mem_flatMap.mp hk2 with ⟨pj2, _, hk2⟩
    rcases List.mem_filterMap.mp hk with ⟨ck, _, hck⟩
    rcases List.mem_filterMap.mp hk2 with ⟨ck2, _, hck2⟩
    obtain ⟨h1, _⟩ := cond_some_eq_some hck
    obtain ⟨h2, _⟩ := cond_some_eq_some hck2
    exact hne (congrArg (fun t => t.1) (h1.symm.trans h2))

/-- A key is generated exactly for the index triples whose entities
exist and are mutually compatible in the sense of the specification. -/
theorem mem_yVars_iff (flights : List Flight)
    (pilots copilots : List CrewMember) (fi pj ck : ℕ) :
    (fi, pj, ck) ∈ yVars flights pilots copilots ↔
      ∃ f p c, flights[fi]? = some f ∧ pilots[pj]? = some p ∧
        copilots[ck]? = some c ∧ compatibleSpec f p ∧ compatibleSpec f c := by
  unfold yVars
  simp only [List.mem_flatMap, List.mem_filterMap,
    List.mem_enum_iff_getElem?, Prod.exists]
  constructor
  · rintro ⟨i, f, hf, j, p, hp, l, c, hc, hite⟩
    obtain ⟨heq, hcompat⟩ := cond_some_eq_some hite
    simp only [Prod.mk.injEq] at heq
    obtain ⟨rfl, rfl, rfl⟩ := heq
    rw [tripleCompatible_iff] at hcompat
    exact ⟨f, p, c, hf, hp, hc, hcompat.1, hcompat.2⟩
  · rintro ⟨f, p, c, hf, hp, hc, h1, h2⟩
    refine ⟨fi, f, hf, pj, p, hp, ck, c, hc, ?_⟩
    rw [if_pos ((tripleCompatible_iff f p c).mpr ⟨h1, h2⟩)]

/-- Characterization of the overlap pair list. -/
theorem mem_overlapPairs_iff (flights : List Flight) (i j : ℕ) :
    (i, j) ∈ overlapPairs flights ↔
      ∃ f1 f2, flights[i]? = some f1 ∧ flights[j]? = some f2 ∧ i < j ∧
        ¬ (f1.arrival ≤ f2.departure ∨ f2.arrival ≤ f1.departure) := by
  unfold overlapPairs
  simp only [List.mem_flatMap, List.mem_filterMap,
    List.mem_enum_iff_getElem?, Prod.exists]
  constructor
  · rintro ⟨a, f1, hf1, b, f2, hf2, hite⟩
    obtain ⟨heq, hcond⟩ := cond_some_eq_some hite
    simp only [Prod.mk.injEq] at heq
    obtain ⟨rfl, rfl⟩ := heq
    exact ⟨f1, f2, hf1, hf2, hcond.1, hcond.2⟩
  · rintro ⟨f1, f2, hf1, hf2, hij, hcond⟩
    exact ⟨i, f1, hf1, j, f2, hf2, by rw [if_pos ⟨hij, hcond⟩]⟩

/-- Characterization of the minimum-rest pair list. -/
theorem mem_restPairs_iff (flights : List Flight) (mr : ℚ) (i j : ℕ) :
    (i, j) ∈ restPairs flights mr ↔
      ∃ f1 f2, flights[i]? = some f1 ∧ flights[j]? = some f2 ∧ i ≠ j ∧
        f1.arrival < f2.departure ∧ 0 < f2.departure - f1.arrival ∧
        f2.departure - f1.arrival < mr := by
  unfold restPairs
  simp only [List.mem_flatMap, List.mem_filterMap,
    List.mem_enum_iff_getElem?, Prod.exists]
  constructor
  · rintro ⟨a, f1, hf1, b, f2, hf2, hite⟩
    obtain ⟨heq, hcond⟩ := cond_some_eq_some hite
    simp only [Prod.mk.injEq] at heq
    obtain ⟨rfl, rfl⟩ := heq
    exact ⟨f1, f2, hf1, hf2, hcond.1, hcond.2.1, hcond.2.2.1, hcond.2.2.2⟩
  · rintro ⟨f1, f2, hf1, hf2, hij, h1, h2, h3⟩
    exact ⟨i, f1, hf1, j, f2, hf2, by rw [if_pos ⟨hij, h1, h2, h3⟩]⟩

/-- The status string of the extraction report is always the translation
of the status code, whatever the branch. -/
theorem extract_results_status_str (coeff : ℚ) (status : Int)
    (runtime objVal : ℚ) (vars : List VarKey) (x : VarKey → ℚ)
    (flights : List Flight) (pilots copilots : List CrewMember) :
    (extract_results coeff status runtime objVal vars x flights pilots
      copilots).status_str = get_status_string status := by
  unfold extract_results
  split
  · rfl
  · rfl

/-- Expression `Z2` of the source equals the specification's `Z_cost`:
pushing the negation out of the sum. -/
theorem Z2val_eq_Zcost_spec (coeff : ℚ) (flights : List Flight)
    (pilots copilots : List CrewMember) (vars : List VarKey)
    (x : VarKey → ℚ) :
    Z2val coeff flights pilots copilots vars x =
      Zcost_spec coeff flights pilots copilots vars x := by
  unfold Z2val Zcost_spec
  rw [← sum_map_neg]
  congr 1
  simp [neg_mul]

/-! Claim theorems. -/

/-- C9: a pair of well-formed flights that exactly touch (the later
flight departs exactly when the earlier one arrives, gap 0) is recorded
neither in the overlap pair list nor in the rest pair list, in either
orientation.  Since the non-overlap constraints of both roles and the
rest constraints are generated exclusively by iterating these two lists
(`overlapConstrsP`, `overlapConstrsC`, `restConstrsP`), no non-overlap
and no rest constraint is generated for the pair for any crew member. -/
theorem touching_flights_unconstrained (flights : List Flight) (mr : ℚ)
    (i j : ℕ) (f1 f2 : Flight)
    (hi : flights[i]? = some f1) (hj : flights[j]? = some f2)
    (hw1 : f1.departure < f1.arrival) (hw2 : f2.departure < f2.arrival)
    (htouch : f2.departure = f1.arrival) :
    (i, j) ∉ overlapPairs flights ∧ (j, i) ∉ overlapPairs flights ∧
    (i, j) ∉ restPairs flights mr ∧ (j, i) ∉ restPairs flights mr := by
  refine ⟨?_, ?_, ?_, ?_⟩
  · intro hmem
    rcases (mem_overlapPairs_iff flights i j).mp hmem with
      ⟨g1, g2, hg1, hg2, _, hcond⟩
    rw [hi, Option.some.injEq] at hg1
    rw [hj, Option.some.injEq] at hg2
    subst hg1
    subst hg2
    exact hcond (Or.inl (le_of_eq htouch.symm))
  · intro hmem
    rcases (mem_overlapPairs_iff flights j i).mp hmem with
      ⟨g2, g1, hg2, hg1, _, hcond⟩
    rw [hi, Option.some.injEq] at hg1
    rw [hj, Option.some.injEq] at hg2
    subst hg1
    subst hg2
    exact hcond (Or.inr (le_of_eq htouch.symm))
  · intro hmem
    rcases (mem_restPairs_iff flights mr i j).mp hmem with
      ⟨g1, g2, hg1, hg2, _, h1, _, _⟩
    rw [hi, Option.some.injEq] at hg1
    rw [hj, Option.some.injEq] at hg2
    subst hg1
    subst hg2
    rw [htouch] at h1
    exact lt_irrefl _ h1
  · intro hmem
    rcases (mem_restPairs_iff flights mr j i).mp hmem with
      ⟨g2, g1, hg2, hg1, _, h1, _, _⟩
    rw [hi, Option.some.injEq] at hg1
    rw [hj, Option.some.injEq] at hg2
    subst hg1
    subst hg2
    linarith

/-- Witness for C9: the concrete flights `08h-10h` and `10h-12h` (on the
embedded scale `0-2` and `2-4`) trigger no overlap and no rest pair. -/
theorem touching_flights_unconstrained_witness :
    (0, 1) ∉ overlapPairs [exFlight1, exFlightT] ∧
    (1, 0) ∉ overlapPairs [exFlight1, exFlightT] ∧
    (0, 1) ∉ restPairs [exFlight1, exFlightT] 8 ∧
    (1, 0) ∉ restPairs [exFlight1, exFlightT] 8 :=
  touching_flights_unconstrained [exFlight1, exFlightT] 8 0 1 exFlight1
    exFlightT rfl rfl (by decide) (by decide) rfl

/-- C10: with an empty flights, pilots or copilots list, `solve` returns
the error report with status `-1`, status string `ERREUR` and an empty
solution, independently of the external solver; in particular the result
is not the fallback report, whose status string is always
`OPTIMAL (secours)`. -/
theorem empty_catalog_erreur (data : DataModel) (oracle : SolverOracle)
    (h : data.flights = [] ∨ data.pilots = [] ∨ data.copilots = []) :
    solve data oracle =
      { status := -1, status_str := "ERREUR", objective_value := none,
        solve_time := none, solution := [], assignments := [],
        total_cost := none, message := "Données insuffisantes" } ∧
    (solve data oracle).status_str ≠
      (create_fallback_solution data.flights data.pilots
        data.copilots).status_str := by
  have hlen : data.flights.length = 0 ∨ data.pilots.length = 0 ∨
      data.copilots.length = 0 := by
    rcases h with h | h | h
    · exact Or.inl (by rw [h]; rfl)
    · exact Or.inr (Or.inl (by rw [h]; rfl))
    · exact Or.inr (Or.inr (by rw [h]; rfl))
  have hs : solve data oracle =
      { status := -1, status_str := "ERREUR", objective_value := none,
        solve_time := none, solution := [], assignments := [],
        total_cost := none, message := "Données insuffisantes" } := by
    unfold solve
    rw [if_pos hlen]
  refine ⟨hs, ?_⟩
  rw [hs]
  have hfb : (create_fallback_solution data.flights data.pilots
      data.copilots).status_str = "OPTIMAL (secours)" := rfl
  rw [hfb]
  decide

/-- Witness for C10 at a concrete catalog with no flights. -/
theorem empty_catalog_erreur_witness :
    solve exDataEmpty exOracle =
      { status := -1, status_str := "ERREUR", objective_value := none,
        solve_time := none, solution := [], assignments := [],
        total_cost := none, message := "Données insuffisantes" } ∧
    (solve exDataEmpty exOracle).status_str ≠
      (create_fallback_solution exDataEmpty.flights exDataEmpty.pilots
        exDataEmpty.copilots).status_str :=
  empty_catalog_erreur exDataEmpty exOracle (Or.inl rfl)

/-- C3 (amended): on TIME_LIMIT the extraction reports the status string
`TEMPS_LIMITE` (the status is not silently dropped) but always returns
an empty report: no assignments, no objective value, empty solution.
The incumbent valuation is never read, because assignments are
reconstructed only on OPTIMAL. -/
theorem time_limit_reports_status_empty_report (coeff runtime objVal : ℚ)
    (vars : List VarKey) (x : VarKey → ℚ) (flights : List Flight)
    (pilots copilots : List CrewMember) :
    extract_results coeff GRB_TIME_LIMIT runtime objVal vars x flights
        pilots copilots =
      { status := GRB_TIME_LIMIT, status_str := "TEMPS_LIMITE",
        objective_value := none, solve_time := some runtime,
        solution := [], assignments := [], total_cost := some 0,
        message := "" } := by
  rw [extract_results_of_ne _ _ _ _ _ _ _ _ _ (by decide)]
  rfl

/-- C3 counterexample: the valuation values variable `(0,0,0)` at `1`
(above the `0.5` threshold), so a best available valuation exists, yet
the TIME_LIMIT report carries no assignment at all. -/
theorem time_limit_drops_incumbent_cex :
    mkRat 1 2 < (fun _ : VarKey => (1 : ℚ)) (0, 0, 0) ∧
    (extract_results 100 GRB_TIME_LIMIT 0 0 [(0, 0, 0)] (fun _ => 1)
      [exFlight1] [exPilot1] [exCopilot1]).assignments = [] ∧
    (extract_results 100 GRB_TIME_LIMIT 0 0 [(0, 0, 0)] (fun _ => 1)
      [exFlight1] [exPilot1] [exCopilot1]).status_str = "TEMPS_LIMITE" := by
  decide

/-- C5 (amended): for a fixed OPTIMAL valuation, extraction rebuilds one
Assignment with the specification's cost breakdown per variable valued
above `0.5`, in the creation order of the variables (lexicographic in
the flight, pilot and copilot catalog indices) — not sorted by departure
time.  As a plain function of its arguments, the extraction is
deterministic. -/
theorem extraction_reconstructs_in_creation_order (coeff runtime objVal : ℚ)
    (vars : List VarKey) (x : VarKey → ℚ) (flights : List Flight)
    (pilots copilots : List CrewMember) :
    (extract_results coeff GRB_OPTIMAL runtime objVal vars x flights
        pilots copilots).assignments =
      (vars.filter (fun k => decide (mkRat 1 2 < x k))).map
        (reconstructSpec coeff flights pilots copilots) :=
  extract_results_assignments_optimal coeff runtime objVal vars x flights
    pilots copilots

/-- C5 counterexample: with the two flights stored in reverse
chronological order and both selected, the extracted assignments keep
creation order (departures `[5, 0]`), which is not sorted by departure
time. -/
theorem extraction_not_sorted_by_departure_cex :
    ((extract_results 100 GRB_OPTIMAL 0 0
        (yVars [exFlight2, exFlight1] [exPilot1] [exCopilot1])
        (fun _ => 1) [exFlight2, exFlight1] [exPilot1]
        [exCopilot1]).assignments.map (fun a => a.departure)) = [5, 0] ∧
    ¬ List.Sorted (· ≤ ·)
      ((extract_results 100 GRB_OPTIMAL 0 0
        (yVars [exFlight2, exFlight1] [exPilot1] [exCopilot1])
        (fun _ => 1) [exFlight2, exFlight1] [exPilot1]
        [exCopilot1]).assignments.map (fun a => a.departure)) := by
  refine ⟨by decide, ?_⟩
  decide

/-- C1: in the concrete catalog `exDataRest` the flight pair `(0, 1)` is
TOO_CLOSE (gap 3, min_rest 8), and the built model contains the rest
constraint of pilot `0` over the pair, of the claimed shape; but no
constraint of the whole model bounds the sum of copilot `0` variables
over the two flights by `1`: the source generates rest constraints for
the pilot role only, with no analogous loop for copilots. -/
theorem copilot_rest_constraint_missing :
    (0, 1) ∈ restPairs exDataRest.flights exDataRest.min_rest ∧
    (∃ ct ∈ buildConstraints exDataRest
        (yVars exDataRest.flights exDataRest.pilots exDataRest.copilots),
      boundsSumBy1 ct
        (pilotVarsOn (yVars exDataRest.flights exDataRest.pilots
          exDataRest.copilots) 0 0 ++
         pilotVarsOn (yVars exDataRest.flights exDataRest.pilots
          exDataRest.copilots) 0 1)) ∧
    (∀ ct ∈ buildConstraints exDataRest
        (yVars exDataRest.flights exDataRest.pilots exDataRest.copilots),
      ¬ boundsSumBy1 ct
        (copilotVarsOn (yVars exDataRest.flights exDataRest.pilots
          exDataRest.copilots) 0 0 ++
         copilotVarsOn (yVars exDataRest.flights exDataRest.pilots
          exDataRest.copilots) 0 1)) := by
  decide

/-- C2 (amended): the fallback inspects only the head of each catalog
list and only the aircraft-type qualifications (required languages are
ignored); when the check passes it forces that single head assignment,
whose cost omits the base penalty, otherwise it returns no assignment;
its status is always `2` with status string `OPTIMAL (secours)`. -/
theorem fallback_first_triple_quals_only (flights : List Flight)
    (pilots copilots : List CrewMember) :
    ((create_fallback_solution flights pilots copilots).status = 2 ∧
     (create_fallback_solution flights pilots copilots).status_str =
       "OPTIMAL (secours)") ∧
    (∀ f fs p ps c cs, flights = f :: fs → pilots = p :: ps →
      copilots = c :: cs →
      ((f.aircraft_type ∈ p.qualifications ∧
          f.aircraft_type ∈ c.qualifications) →
        (create_fallback_solution flights pilots copilots).assignments =
          [{ flight := f.id, pilot := p.name, copilot := c.name,
             departure := f.departure, arrival := f.arrival,
             duration := f.duration, aircraft := f.aircraft_type,
             cost := (p.hourly_cost + c.hourly_cost) * f.duration +
               f.op_cost }]) ∧
      (¬ (f.aircraft_type ∈ p.qualifications ∧
          f.aircraft_type ∈ c.qualifications) →
        (create_fallback_solution flights pilots copilots).assignments =
          [])) ∧
    ((flights = [] ∨ pilots = [] ∨ copilots = []) →
      (create_fallback_solution flights pilots copilots).assignments =
        []) := by
  refine ⟨⟨rfl, rfl⟩, ?_, ?_⟩
  · rintro f fs p ps c cs rfl rfl rfl
    constructor
    · intro hq
      simp [create_fallback_solution, hq]
    · intro hq
      simp [create_fallback_solution, hq]
  · intro h
    rcases flights with _ | ⟨f, fs⟩
    · rfl
    rcases pilots with _ | ⟨p, ps⟩
    · rfl
    rcases copilots with _ | ⟨c, cs⟩
    · rfl
    rcases h with h | h | h
    all_goals exact absurd h (by simp)

/-- Witness for C2 at the concrete head triple that passes the
qualification-only check. -/
theorem fallback_first_triple_quals_only_witness :
    (create_fallback_solution [exFlightFR] [exPilotEN]
        [exCopilotEN]).assignments =
      [{ flight := exFlightFR.id, pilot := exPilotEN.name,
         copilot := exCopilotEN.name, departure := exFlightFR.departure,
         arrival := exFlightFR.arrival, duration := exFlightFR.duration,
         aircraft := exFlightFR.aircraft_type,
         cost := (exPilotEN.hourly_cost + exCopilotEN.hourly_cost) *
           exFlightFR.duration + exFlightFR.op_cost }] :=
  ((fallback_first_triple_quals_only [exFlightFR] [exPilotEN]
      [exCopilotEN]).2.1 exFlightFR [] exPilotEN [] exCopilotEN []
    rfl rfl rfl).1 (by decide)

/-- C2 counterexample: in `exDataNoLang` zero candidate variables exist
and no mutually compatible triple exists anywhere in the catalog (the
languages fail), so the claim requires an empty report, yet the pipeline
returns one forced assignment. -/
theorem fallback_ignores_languages_cex :
    yVars exDataNoLang.flights exDataNoLang.pilots
        exDataNoLang.copilots = [] ∧
    (∀ f ∈ exDataNoLang.flights, ∀ p ∈ exDataNoLang.pilots,
      ∀ c ∈ exDataNoLang.copilots,
      ¬ (compatibleSpec f p ∧ compatibleSpec f c)) ∧
    (solve exDataNoLang exOracle).assignments.length = 1 := by
  decide

/-- C4 (amended): no malformed-entity validation exists; with non-empty
catalogs the pipeline never produces the `ERREUR` rejection and always
proceeds to fallback or to model construction and extraction, whatever
the entities contain. -/
theorem no_validation_no_erreur_when_nonempty (data : DataModel)
    (oracle : SolverOracle) (h1 : data.flights ≠ [])
    (h2 : data.pilots ≠ []) (h3 : data.copilots ≠ []) :
    (solve data oracle).status_str ≠ "ERREUR" ∧
    (solve data oracle =
      create_fallback_solution data.flights data.pilots data.copilots ∨
     solve data oracle =
      extract_results data.base_penalty_coeff oracle.status
        oracle.runtime oracle.objVal
        (yVars data.flights data.pilots data.copilots) oracle.valuation
        data.flights data.pilots data.copilots) := by
  have hcond : ¬ (data.flights.length = 0 ∨ data.pilots.length = 0 ∨
      data.copilots.length = 0) := by
    rintro (h | h | h)
    exacts [h1 (List.length_eq_zero.mp h), h2 (List.length_eq_zero.mp h),
      h3 (List.length_eq_zero.mp h)]
  have hsolve : solve data oracle =
      if (yVars data.flights data.pilots data.copilots).length = 0 then
        create_fallback_solution data.flights data.pilots data.copilots
      else
        extract_results data.base_penalty_coeff oracle.status
          oracle.runtime oracle.objVal
          (yVars data.flights data.pilots data.copilots) oracle.valuation
          data.flights data.pilots data.copilots := by
    unfold solve
    rw [if_neg hcond]
  by_cases hv : (yVars data.flights data.pilots data.copilots).length = 0
  · rw [hsolve, if_pos hv]
    refine ⟨?_, Or.inl rfl⟩
    have hfb : (create_fallback_solution data.flights data.pilots
        data.copilots).status_str = "OPTIMAL (secours)" := rfl
    rw [hfb]
    decide
  · rw [hsolve, if_neg hv]
    refine ⟨?_, Or.inr rfl⟩
    rw [extract_results_status_str]
    exact get_status_string_ne_erreur oracle.status

/-- Witness for C4 at the malformed concrete catalog. -/
theorem no_validation_no_erreur_when_nonempty_witness :
    (solve exDataBad exOracle).status_str ≠ "ERREUR" ∧
    (solve exDataBad exOracle =
      create_fallback_solution exDataBad.flights exDataBad.pilots
        exDataBad.copilots ∨
     solve exDataBad exOracle =
      extract_results exDataBad.base_penalty_coeff exOracle.status
        exOracle.runtime exOracle.objVal
        (yVars exDataBad.flights exDataBad.pilots exDataBad.copilots)
        exOracle.valuation exDataBad.flights exDataBad.pilots
        exDataBad.copilots) :=
  no_validation_no_erreur_when_nonempty exDataBad exOracle (by decide)
    (by decide) (by decide)

/-- C4 counterexample: the catalog contains a flight with
arrival ≤ departure and a negative operational cost, yet variable
generation proceeds and the pipeline extracts a full assignment instead
of rejecting the input. -/
theorem malformed_input_not_rejected_cex :
    exFlightBad.arrival ≤ exFlightBad.departure ∧
    exFlightBad.op_cost < 0 ∧
    yVars exDataBad.flights exDataBad.pilots exDataBad.copilots ≠ [] ∧
    (solve exDataBad exOracle).status_str = "OPTIMAL" ∧
    (solve exDataBad exOracle).assignments.length = 1 := by
  decide

/-- C6: the scalarized objective equals the specification's `Z_cost`
when λ = 0, the specification's `Z_cover` when λ = 1, and otherwise the
weighted combination with the fixed normalization constant
`weight_per_flight` = 1000; the optimization sense is MAXIMIZE in every
case. -/
theorem objective_scalarization (data : DataModel) (vars : List VarKey)
    (x : VarKey → ℚ) :
    modelSense = Sense.maximize ∧
    (data.lambda_weight = 0 →
      objectiveVal data vars x =
        Zcost_spec data.base_penalty_coeff data.flights data.pilots
          data.copilots vars x) ∧
    (data.lambda_weight = 1 →
      objectiveVal data vars x = Zcover_spec vars x) ∧
    (data.lambda_weight ≠ 0 → data.lambda_weight ≠ 1 →
      objectiveVal data vars x =
        data.lambda_weight * (Zcover_spec vars x * weight_per_flight) +
        (1 - data.lambda_weight) *
          Zcost_spec data.base_penalty_coeff data.flights data.pilots
            data.copilots vars x) := by
  refine ⟨rfl, ?_, ?_, ?_⟩
  · intro h
    simp [objectiveVal, h, Z2val_eq_Zcost_spec]
  · intro h
    simp [objectiveVal, h, Zcover_spec, Z1val]
  · intro h0 h1
    simp [objectiveVal, h0, h1, Z2val_eq_Zcost_spec, Zcover_spec, Z1val]

/-- Witness for C6 at the concrete λ = 1/2 catalog. -/
theorem objective_scalarization_witness :
    objectiveVal exDataRest [] (fun _ => 0) =
      exDataRest.lambda_weight *
        (Zcover_spec [] (fun _ => 0) * weight_per_flight) +
      (1 - exDataRest.lambda_weight) *
        Zcost_spec exDataRest.base_penalty_coeff exDataRest.flights
          exDataRest.pilots exDataRest.copilots [] (fun _ => 0) :=
  (objective_scalarization exDataRest [] (fun _ => 0)).2.2.2
    (by decide) (by decide)

/-- C7: every Assignment of an extracted report carries the
specification's cost breakdown
`total_cost = salary_cost + operational_cost + base_mismatch_penalty`
for its selected variable key, and when both crew bases match the
arrival base the penalty contribution is `0`. -/
theorem assignment_cost_formula (coeff : ℚ) (status : Int)
    (runtime objVal : ℚ) (vars : List VarKey) (x : VarKey → ℚ)
    (flights : List Flight) (pilots copilots : List CrewMember) :
    (∀ a ∈ (extract_results coeff status runtime objVal vars x flights
        pilots copilots).assignments,
      ∃ k ∈ vars, mkRat 1 2 < x k ∧
        a.cost = totalCostSpec coeff (flights.getD k.1 default)
          (pilots.getD k.2.1 default) (copilots.getD k.2.2 default)) ∧
    (∀ (f : Flight) (p c : CrewMember), f.arr_base = p.base →
      f.arr_base = c.base →
      totalCostSpec coeff f p c =
        (p.hourly_cost + c.hourly_cost) * f.duration + f.op_cost) := by
  constructor
  · intro a ha
    by_cases h : status = GRB_OPTIMAL
    · subst h
      rw [extract_results_assignments_optimal] at ha
      rcases List.mem_map.mp ha with ⟨k, hk, rfl⟩
      rcases List.mem_filter.mp hk with ⟨hkv, hsel⟩
      exact ⟨k, hkv, of_decide_eq_true hsel, rfl⟩
    · rw [extract_results_of_ne _ _ _ _ _ _ _ _ _ h] at ha
      simp at ha
  · intro f p c hp hc
    unfold totalCostSpec
    rw [if_neg (fun hne => hne hp), if_neg (fun hne => hne hc)]
    ring

/-- Witness for C7 at the concrete one-variable catalog whose crew bases
match the arrival base. -/
theorem assignment_cost_formula_witness :
    (∃ k ∈ [((0, 0, 0) : VarKey)],
      mkRat 1 2 < (fun _ : VarKey => (1 : ℚ)) k ∧
      (reconstructSpec 100 [exFlight1] [exPilot1] [exCopilot1]
          (0, 0, 0)).cost =
        totalCostSpec 100 ([exFlight1].getD k.1 default)
          ([exPilot1].getD k.2.1 default)
          ([exCopilot1].getD k.2.2 default)) ∧
    totalCostSpec 100 exFlight1 exPilot1 exCopilot1 =
      (exPilot1.hourly_cost + exCopilot1.hourly_cost) *
        exFlight1.duration + exFlight1.op_cost :=
  ⟨(assignment_cost_formula 100 2 0 0 [(0, 0, 0)] (fun _ => 1)
      [exFlight1] [exPilot1] [exCopilot1]).1
      (reconstructSpec 100 [exFlight1] [exPilot1] [exCopilot1] (0, 0, 0))
      (by decide),
   (assignment_cost_formula 100 2 0 0 [(0, 0, 0)] (fun _ => 1)
      [exFlight1] [exPilot1] [exCopilot1]).2 exFlight1 exPilot1
      exCopilot1 rfl rfl⟩

/-- C8: one decision variable key exists exactly for each index triple
whose flight is compatible with both the pilot and the copilot in the
specification's sense, with no duplicate key; and when no variable
exists on a non-empty catalog, `solve` routes the EMPTY_MODEL case to
the fallback selector. -/
theorem variable_generation_compatibility (data : DataModel)
    (oracle : SolverOracle) (flights : List Flight)
    (pilots copilots : List CrewMember) (fi pj ck : ℕ) :
    ((fi, pj, ck) ∈ yVars flights pilots copilots ↔
      ∃ f p c, flights[fi]? = some f ∧ pilots[pj]? = some p ∧
        copilots[ck]? = some c ∧ compatibleSpec f p ∧
        compatibleSpec f c) ∧
    (yVars flights pilots copilots).Nodup ∧
    (data.flights ≠ [] → data.pilots ≠ [] → data.copilots ≠ [] →
      yVars data.flights data.pilots data.copilots = [] →
      solve data oracle =
        create_fallback_solution data.flights data.pilots
          data.copilots) := by
  refine ⟨mem_yVars_iff flights pilots copilots fi pj ck,
    yVars_nodup flights pilots copilots, ?_⟩
  intro h1 h2 h3 h4
  have hcond : ¬ (data.flights.length = 0 ∨ data.pilots.length = 0 ∨
      data.copilots.length = 0) := by
    rintro (h | h | h)
    exacts [h1 (List.length_eq_zero.mp h), h2 (List.length_eq_zero.mp h),
      h3 (List.length_eq_zero.mp h)]
  unfold solve
  rw [if_neg hcond]
  simp [h4]

/-- Witness for C8: the EMPTY_MODEL catalog `exDataNoLang` is routed to
the fallback selector. -/
theorem variable_generation_compatibility_witness :
    solve exDataNoLang exOracle =
      create_fallback_solution exDataNoLang.flights exDataNoLang.pilots
        exDataNoLang.copilots :=
  (variable_generation_compatibility exDataNoLang exOracle [] [] []
      0 0 0).2.2 (by decide) (by decide) (by decide) (by decide)

end Probleme13
